import Mathlib

/-
Shallow embedding of the request-send / response-receive state machine of
`src/write.rs` (`RequestWrite`).  External collaborators (connection
provider, response parser, cookie sink, chunk codec, URL join) are not part
of `src/`; they are modelled as oracles: queues of outcomes consumed in
order, held in a `World` record, plus a pure URL-join function in `Env`.
All side effects (connects, stream writes, chunk frames, cookie saves) are
recorded in the `World` so that theorems can speak about which effects a
code path performs.
-/

set_option autoImplicit false

namespace Ureq

/-- The error type of the crate (`Error` in `error.rs`, which is not under
`src/`); only the variants reachable from `write.rs` are modelled. -/
inductive Error where
  | badStatus
  | tooManyRedirects
  | badUrl (msg : String)
  | transport (code : Nat)
deriving DecidableEq

/-- `Error::is_bad_status_read`: true exactly for the "bad status line" error. -/
def Error.is_bad_status_read : Error → Bool
  | .badStatus => true
  | _ => false

/-- A raw connection, identified abstractly, or the inert placeholder
`Stream::Empty` used after ownership transfer. -/
inductive Stream where
  | conn (id : Nat)
  | empty
deriving DecidableEq

/-- `DeadlineStream`: a stream together with an optional absolute deadline. -/
structure DeadlineStream where
  stream : Stream
  deadline : Option Nat
deriving DecidableEq

def DeadlineStream.new (s : Stream) (d : Option Nat) : DeadlineStream := ⟨s, d⟩

/-- The request descriptor (`Unit` in `unit.rs`, not under `src/`): the
fields `write.rs` reads are modelled. -/
structure Unit where
  method : String
  url : String
  redirects : Nat
  is_chunked : Bool
  deadline : Option Nat
deriving DecidableEq

/-- Modelled from the spec: `Unit::redirect_to` (in `unit.rs`, not under
`src/`) constructs a new Unit targeting the resolved URL with the redirect
budget decremented. -/
def Unit.redirect_to (u : Unit) (newUrl : String) : Unit :=
  { u with url := newUrl, redirects := u.redirects - 1 }

/-- A parsed HTTP response (`Response` in `response.rs`, not under `src/`).
`synthetic` holds a transport failure represented as data; `handoff` holds
the stream ownership transferred by `set_stream` on the terminal path. -/
structure Response where
  status : Nat
  headers : List (String × String)
  synthetic : Option Error
  handoff : Option (String × Unit × DeadlineStream)
deriving DecidableEq

/-- Modelled from the spec: `Response::redirect` (in `response.rs`, not
under `src/`) holds exactly for redirect-class statuses 300..=399. -/
def Response.redirect (r : Response) : Bool :=
  decide (300 ≤ r.status) && decide (r.status ≤ 399)

/-- Modelled from the spec: `Response::header` (in `response.rs`, not under
`src/`) returns the value of the first header with the given name. -/
def Response.header (r : Response) (name : String) : Option String :=
  (r.headers.find? (fun p => p.1 == name)).map (fun p => p.2)

/-- `Response::synthetic_error` accessor. -/
def Response.synthetic_error (r : Response) : Option Error := r.synthetic

/-- Modelled from the spec: `set_stream` (in `response.rs`, not under
`src/`) transfers the final URL, a copy of the Unit, and ownership of the
stream into the Response for body reading. -/
def set_stream (r : Response) (url : String) (u : Unit) (s : DeadlineStream) : Response :=
  { r with handoff := some (url, u, s) }

/-- Modelled from the spec: `impl Into<Response> for Error` (in `error.rs`,
not under `src/`) converts a hard error into a Response carrying it as a
synthetic error (status 500). -/
def Error.intoResponse (e : Error) : Response :=
  { status := 500, headers := [], synthetic := some e, handoff := none }

/-- Observable side effects of the writer on the outside world. -/
inductive Event where
  | connect (id : Nat)
  | rawWrite (s : Stream) (bytes : List Nat)
  | chunkFrame (s : Stream) (payload : List Nat)
  | endChunk (s : Stream)
deriving DecidableEq

/-- The oracle state: queues of outcomes for the external collaborators
(`connects` for the connection provider, `parses` for the response parser,
`writes` for stream-level write outcomes) and logs of performed effects. -/
structure World where
  connects : List (Except Error (Nat × Bool))
  parses : List Response
  writes : List (Except Error Nat)
  events : List Event
  cookies : List (Unit × Response)

def World.popConnect (w : World) : Except Error (Nat × Bool) × World :=
  match w.connects with
  | [] => (Except.error (Error.transport 0), w)
  | c :: rest => (c, { w with connects := rest })

def World.popParse (w : World) : Response × World :=
  match w.parses with
  | [] => (⟨0, [], some (Error.transport 0), none⟩, w)
  | r :: rest => (r, { w with parses := rest })

def World.popWrite (w : World) : Except Error Nat × World :=
  match w.writes with
  | [] => (Except.error (Error.transport 0), w)
  | r :: rest => (r, { w with writes := rest })

def World.logEvent (w : World) (e : Event) : World :=
  { w with events := w.events ++ [e] }

/-- Modelled from the spec: `unit::save_cookies` (in `unit.rs`, not under
`src/`) persists the response's cookies for the unit, side-effecting only. -/
def World.saveCookies (w : World) (u : Unit) (r : Response) : World :=
  { w with cookies := w.cookies ++ [(u, r)] }

/-- Pure oracles: URL join (`url.join` of the url crate, external). -/
structure Env where
  urlJoin : String → String → Option String

/-- Modelled from the spec: `unit::connect_and_send_prelude` (in `unit.rs`,
not under `src/`): obtains a stream plus a recycled flag from the
connection provider and sends the request prelude on it. -/
def connect_and_send_prelude (w : World) : Except Error (Stream × Bool) × World :=
  match w.popConnect with
  | (.ok (sid, rec), w') => (.ok (.conn sid, rec), w'.logEvent (.connect sid))
  | (.error e, w') => (.error e, w')

/-- The state of `RequestWrite` (`write.rs`). -/
structure RequestWrite where
  unit : Unit
  stream : DeadlineStream
  body_empty : Bool
  connection_is_recycled : Bool
  finished : Bool

/-- `RequestWrite::new`: connect, send the prelude, wrap with the deadline. -/
def RequestWrite.new (unit : Unit) (w : World) : Except Error RequestWrite × World :=
  match connect_and_send_prelude w with
  | (.error e, w') => (.error e, w')
  | (.ok (s, recycled), w') =>
    (.ok { unit := unit, stream := DeadlineStream.new s unit.deadline,
           connection_is_recycled := recycled, body_empty := true, finished := false },
     w')

-- Per RFC 7231 section 8.1.3 these methods are idempotent; a Rust
-- multi-pattern string match is embedded as a chain of equality tests.
/-- `RequestWrite::is_retryable`: idempotent method and empty body. -/
def RequestWrite.is_retryable (self : RequestWrite) : Bool :=
  let idempotent :=
    self.unit.method == "DELETE" || self.unit.method == "GET" ||
    self.unit.method == "HEAD" || self.unit.method == "OPTIONS" ||
    self.unit.method == "PUT" || self.unit.method == "TRACE"
  idempotent && self.body_empty

/-- Modelled from the spec: `copy_chunked` (in `body.rs`, not under `src/`)
encodes the whole buffer as one chunk frame onto the stream and returns the
number of payload bytes copied. -/
def copy_chunked (buf : List Nat) (s : DeadlineStream) (w : World) :
    Except Error Nat × World :=
  match w.popWrite with
  | (.ok _, w') => (.ok buf.length, w'.logEvent (.chunkFrame s.stream buf))
  | (.error e, w') => (.error e, w')

/-- Modelled from the spec: `end_chunked` (in `body.rs`, not under `src/`)
emits the terminating zero-length chunk frame. -/
def end_chunked (s : DeadlineStream) (w : World) : Except Error PUnit.{1} × World :=
  match w.popWrite with
  | (.ok _, w') => (.ok PUnit.unit, w'.logEvent (.endChunk s.stream))
  | (.error e, w') => (.error e, w')

/-- Raw write on the deadline stream: the oracle chooses how many bytes the
stream accepts; the accepted prefix is forwarded unmodified. -/
def stream_write (s : DeadlineStream) (buf : List Nat) (w : World) :
    Except Error Nat × World :=
  match w.popWrite with
  | (.ok n, w') =>
    (.ok (min n buf.length), w'.logEvent (.rawWrite s.stream (buf.take (min n buf.length))))
  | (.error e, w') => (.error e, w')

/-- `<RequestWrite as Write>::write`. -/
def RequestWrite.write (self : RequestWrite) (buf : List Nat) (w : World) :
    Except Error Nat × RequestWrite × World :=
  if buf.length > 0 then
    let self' := { self with body_empty := false }
    if self'.unit.is_chunked then
      match copy_chunked buf self'.stream w with
      | (r, w') => (r, self', w')
    else
      match stream_write self'.stream buf w with
      | (r, w') => (r, self', w')
  else
    (.ok 0, self, w)

/-- The fixed idempotent-method set of `is_retryable`. -/
def idempotentMethods : List String :=
  ["DELETE", "GET", "HEAD", "OPTIONS", "PUT", "TRACE"]

/-- Outcome of one `do_finish` invocation: a Rust `Result` together with
the writer's final state and the world, or a panic (a failed `assert!`,
which carries the world at the moment of the panic), or exhaustion of the
recursion fuel (the embedding's stand-in for non-termination). -/
inductive FinishResult where
  | res (r : Except Error Response) (self : RequestWrite) (w : World)
  | panic (w : World)
  | fuelOut

/-- Propagation of a recursive `Self::new(new_unit)?.do_finish()` result
back to the outer call: the inner result and world are returned, the outer
writer keeps its own state. -/
def after_redirect (self : RequestWrite) : FinishResult → FinishResult
  | .res r _ w => .res r self w
  | .panic w => .panic w
  | .fuelOut => .fuelOut

/-- The terminal hand-off at the end of `do_finish`: `set_stream` moves the
URL, a copy of the Unit and the stream into the response, and the writer's
stream field is replaced by the inert placeholder. -/
def finish_terminal (self : RequestWrite) (resp : Response) (w : World) : FinishResult :=
  FinishResult.res (.ok (set_stream resp self.unit.url self.unit self.stream))
    { self with stream := DeadlineStream.new Stream.empty none } w

/-- `RequestWrite::do_finish`, recursion made structural on a fuel
parameter.  Mirrors `src/write.rs` lines 47-119: assert on the finished
flag, mark finished, terminating chunk frame, response parse, one-shot
retry on a "bad status line" synthetic error over a recycled connection,
cookie save, redirect handling with the budget-of-one error, and the
terminal stream hand-off. -/
def do_finish (env : Env) : Nat → RequestWrite → World → FinishResult
  | 0, _, _ => FinishResult.fuelOut
  | Nat.succ fuel, self0, w0 =>
    if self0.finished then FinishResult.panic w0 else
    let self := { self0 with finished := true }
    match (if self.unit.is_chunked then end_chunked self.stream w0
           else (Except.ok PUnit.unit, w0)) with
    | (.error e, w1) => .res (.error e) self w1
    | (.ok _, w1) =>
      match w1.popParse with
      | (resp, w2) =>
        if (match resp.synthetic_error with
            | some err =>
              err.is_bad_status_read && self.is_retryable && self.connection_is_recycled
            | none => false) then
          match connect_and_send_prelude w2 with
          | (.error e, w3) => .res (.error e) self w3
          | (.ok (s, rec), w3) =>
            do_finish env fuel
              { self with stream := DeadlineStream.new s self.unit.deadline,
                          connection_is_recycled := rec } w3
        else
          let w3 := w2.saveCookies self.unit resp
          if resp.redirect && self.unit.redirects != 0 then
            if self.unit.redirects == 1 then
              .res (.error Error.tooManyRedirects) self w3
            else
              match resp.header "location" with
              | some location =>
                match env.urlJoin self.unit.url location with
                | none =>
                  .res (.error (Error.badUrl ("Bad redirection: " ++ location))) self w3
                | some new_url =>
                  if resp.status == 301 || resp.status == 302 || resp.status == 303 then
                    match RequestWrite.new (self.unit.redirect_to new_url) w3 with
                    | (.error e, w4) => .res (.error e) self w4
                    | (.ok nw, w4) => after_redirect self (do_finish env fuel nw w4)
                  else finish_terminal self resp w3
              | none => finish_terminal self resp w3
          else finish_terminal self resp w3

/-- Outcome of the public `finish()`: a Response (hard errors already
converted into synthetic-error responses), or a panic, or fuel
exhaustion. -/
inductive FinishOut where
  | ok (r : Response) (w : World)
  | panic (w : World)
  | fuelOut

/-- `self.do_finish().unwrap_or_else(|e| e.into())`. -/
def finishOfResult : FinishResult → FinishOut
  | .res (.ok r) _ w => .ok r w
  | .res (.error e) _ w => .ok e.intoResponse w
  | .panic w => .panic w
  | .fuelOut => .fuelOut

/-- `RequestWrite::finish`. -/
def RequestWrite.finish (env : Env) (fuel : Nat) (self : RequestWrite) (w : World) :
    FinishOut :=
  finishOfResult (do_finish env fuel self w)

/-- Outcome of `Drop::drop`: the world after the drop, or a panic during
the implicit finish, or fuel exhaustion. -/
inductive DropOut where
  | done (w : World)
  | panic (w : World)
  | fuelOut

/-- The discarded result of the implicit `do_finish` run by `drop`. -/
def dropOfResult : FinishResult → DropOut
  | .res _ _ w => .done w
  | .panic w => .panic w
  | .fuelOut => .fuelOut

/-- `<RequestWrite as Drop>::drop`: runs `do_finish` (result discarded) iff
the writer is not yet finished. -/
def RequestWrite.drop (env : Env) (fuel : Nat) (self : RequestWrite) (w : World) :
    DropOut :=
  if self.finished then DropOut.done w
  else dropOfResult (do_finish env fuel self w)

end Ureq

namespace Ureq

/-- C5: `is_retryable` returns true iff the writer's method is in the fixed
case-sensitive set DELETE/GET/HEAD/OPTIONS/PUT/TRACE and the body written
so far is empty; in particular it is false whenever a non-empty write has
occurred (`body_empty = false`), regardless of method. -/
theorem is_retryable_iff (self : RequestWrite) :
    (self.is_retryable = true ↔
      (self.unit.method ∈ idempotentMethods ∧ self.body_empty = true)) ∧
    (self.body_empty = false → self.is_retryable = false) := by
  constructor
  · simp [RequestWrite.is_retryable, idempotentMethods, or_assoc, and_comm]
  · intro h
    simp [RequestWrite.is_retryable, h]

/-- Witness for C5: a concrete writer with a non-empty body is not
retryable even for method GET. -/
theorem is_retryable_iff_witness :
    RequestWrite.is_retryable
      { unit := { method := "GET", url := "http://host/", redirects := 5,
                  is_chunked := false, deadline := none },
        stream := ⟨Stream.conn 1, none⟩, body_empty := false,
        connection_is_recycled := false, finished := false } = false :=
  (is_retryable_iff _).2 rfl

/-- C8: writing a zero-length buffer returns `Ok 0`, performs no stream
I/O, and leaves the writer (in particular `body_empty`) and the world
unchanged.  Writing a non-empty buffer sets `body_empty` to false and then
either (chunked) encodes the buffer as one chunk frame via the chunk
codec, reporting the number of original payload bytes accepted, or (not
chunked) forwards the bytes to the stream unmodified with the stream's
accepted count. -/
theorem write_contract (self : RequestWrite) (buf : List Nat) (w : World) :
    (RequestWrite.write self [] w = (.ok 0, self, w)) ∧
    (buf ≠ [] →
      ((RequestWrite.write self buf w).2.1 = { self with body_empty := false }) ∧
      (self.unit.is_chunked = true → ∀ k rest, w.writes = .ok k :: rest →
        RequestWrite.write self buf w =
          (.ok buf.length, { self with body_empty := false },
           World.logEvent { w with writes := rest }
             (.chunkFrame self.stream.stream buf))) ∧
      (self.unit.is_chunked = false → ∀ n rest, w.writes = .ok n :: rest →
        RequestWrite.write self buf w =
          (.ok (min n buf.length), { self with body_empty := false },
           World.logEvent { w with writes := rest }
             (.rawWrite self.stream.stream (buf.take (min n buf.length)))))) := by
  refine ⟨rfl, fun hne => ⟨?_, ?_, ?_⟩⟩
  · have hlen : buf.length > 0 := List.length_pos.mpr hne
    by_cases hch : self.unit.is_chunked
    · simp only [RequestWrite.write, if_pos hlen, hch, if_pos]
    · simp only [RequestWrite.write, if_pos hlen, hch]
      simp only [Bool.false_eq_true, if_false]
  · intro hch k rest hw
    have hlen : buf.length > 0 := List.length_pos.mpr hne
    simp [RequestWrite.write, if_pos hlen, hch, copy_chunked, World.popWrite, hw]
  · intro hch n rest hw
    have hlen : buf.length > 0 := List.length_pos.mpr hne
    simp [RequestWrite.write, if_pos hlen, hch, stream_write, World.popWrite, hw]

/-- Witness for C8: a concrete non-chunked writer accepting a 2-byte write. -/
theorem write_contract_witness :
    ([3, 4] : List Nat) ≠ [] ∧
    RequestWrite.write
      { unit := { method := "POST", url := "http://host/", redirects := 5,
                  is_chunked := false, deadline := none },
        stream := ⟨Stream.conn 1, none⟩, body_empty := true,
        connection_is_recycled := false, finished := false }
      [3, 4] ⟨[], [], [Except.ok 2], [], []⟩ =
      (.ok 2,
       { unit := { method := "POST", url := "http://host/", redirects := 5,
                   is_chunked := false, deadline := none },
         stream := ⟨Stream.conn 1, none⟩, body_empty := false,
         connection_is_recycled := false, finished := false },
       ⟨[], [], [], [Event.rawWrite (Stream.conn 1) [3, 4]], []⟩) := by
  refine ⟨by decide, ?_⟩
  have h := ((write_contract
    { unit := { method := "POST", url := "http://host/", redirects := 5,
                is_chunked := false, deadline := none },
      stream := ⟨Stream.conn 1, none⟩, body_empty := true,
      connection_is_recycled := false, finished := false }
    [3, 4] ⟨[], [], [Except.ok 2], [], []⟩).2 (by decide)).2.2 rfl 2 [] rfl
  simpa using h

/-- C10: for every non-empty buffer, `write` sets `body_empty` to false
before attempting any stream I/O, so `body_empty` is false after `write`
returns even when the underlying write fails having transmitted nothing,
and `is_retryable` is false from then on; on a failing oracle the error is
propagated. -/
theorem write_marks_body_before_io (self : RequestWrite) (buf : List Nat) (w : World)
    (hne : buf ≠ []) :
    (RequestWrite.write self buf w).2.1.body_empty = false ∧
    (RequestWrite.write self buf w).2.1.is_retryable = false ∧
    (∀ e rest, w.writes = .error e :: rest →
      (RequestWrite.write self buf w).1 = .error e) := by
  have hlen : buf.length > 0 := List.length_pos.mpr hne
  refine ⟨?_, ?_, ?_⟩
  · by_cases hch : self.unit.is_chunked <;>
      · simp only [RequestWrite.write, if_pos hlen, hch]
        rcases hw : w.popWrite with ⟨res, w2⟩
        cases res <;> simp [copy_chunked, stream_write, hw]
  · by_cases hch : self.unit.is_chunked <;>
      · simp only [RequestWrite.write, if_pos hlen, hch]
        rcases hw : w.popWrite with ⟨res, w2⟩
        cases res <;> simp [copy_chunked, stream_write, RequestWrite.is_retryable, hw]
  · intro e rest hw
    by_cases hch : self.unit.is_chunked <;>
      simp [RequestWrite.write, if_pos hlen, hch, copy_chunked, stream_write,
        World.popWrite, hw]

/-- Witness for C10: a concrete GET writer whose stream write fails still
ends up with `body_empty = false` and not retryable. -/
theorem write_marks_body_before_io_witness :
    (RequestWrite.write
      { unit := { method := "GET", url := "http://host/", redirects := 5,
                  is_chunked := false, deadline := none },
        stream := ⟨Stream.conn 1, none⟩, body_empty := true,
        connection_is_recycled := false, finished := false }
      [7] ⟨[], [], [Except.error (Error.transport 9)], [], []⟩).2.1.body_empty = false ∧
    (RequestWrite.write
      { unit := { method := "GET", url := "http://host/", redirects := 5,
                  is_chunked := false, deadline := none },
        stream := ⟨Stream.conn 1, none⟩, body_empty := true,
        connection_is_recycled := false, finished := false }
      [7] ⟨[], [], [Except.error (Error.transport 9)], [], []⟩).2.1.is_retryable = false ∧
    (∀ e rest,
      ([Except.error (Error.transport 9)] :
          List (Except Error Nat)) = .error e :: rest →
      (RequestWrite.write
        { unit := { method := "GET", url := "http://host/", redirects := 5,
                    is_chunked := false, deadline := none },
          stream := ⟨Stream.conn 1, none⟩, body_empty := true,
          connection_is_recycled := false, finished := false }
        [7] ⟨[], [], [Except.error (Error.transport 9)], [], []⟩).1 = .error e) :=
  write_marks_body_before_io _ [7] _ (by decide)

end Ureq

namespace Ureq

/-- C1 (evaluation at the failing input): on a retryable GET with empty
body whose recycled connection yields a "bad status line" synthetic error,
`do_finish` obtains the new connection and replaces the stream, but the
re-run of the finishing step hits `assert!(!self.finished)` — `finished`
was set to true on the first pass — and panics instead of producing the
retried attempt's response.  The panic is reached at every fuel value of
at least 2, so it is the assertion, not fuel exhaustion. -/
theorem retry_reenters_and_panics (fuel : Nat) :
    do_finish ⟨fun b l => some (b ++ l)⟩ (fuel + 2)
      ⟨⟨"GET", "http://x/", 5, false, none⟩, ⟨Stream.conn 1, none⟩, true, true, false⟩
      ⟨[Except.ok (2, false)],
       [⟨500, [], some Error.badStatus, none⟩, ⟨200, [], none, none⟩], [], [], []⟩ =
    FinishResult.panic ⟨[], [⟨200, [], none, none⟩], [], [Event.connect 2], []⟩ := by
  simp [do_finish, World.popParse, Response.synthetic_error, Error.is_bad_status_read,
    RequestWrite.is_retryable, connect_and_send_prelude, World.popConnect,
    World.logEvent, DeadlineStream.new]

/-- C2 (evaluation at the failing input): `finish()` on a writer whose
recycled connection yields a "bad status line" synthetic error for a
retryable empty-body GET does not return a Response at all: the internal
retry re-entry fails the `assert!(!self.finished)` assertion, so `finish`
panics instead of converting every failure into a synthetic-error
Response.  This holds at every fuel value of at least 2. -/
theorem finish_panics_on_retry (fuel : Nat) :
    RequestWrite.finish ⟨fun b l => some (b ++ l)⟩ (fuel + 2)
      ⟨⟨"GET", "http://y/", 7, false, none⟩, ⟨Stream.conn 5, none⟩, true, true, false⟩
      ⟨[Except.ok (6, false)],
       [⟨500, [], some Error.badStatus, none⟩, ⟨204, [], none, none⟩], [], [], []⟩ =
    FinishOut.panic ⟨[], [⟨204, [], none, none⟩], [], [Event.connect 6], []⟩ := by
  simp [RequestWrite.finish, do_finish, World.popParse, Response.synthetic_error,
    Error.is_bad_status_read, RequestWrite.is_retryable, connect_and_send_prelude,
    World.popConnect, World.logEvent, DeadlineStream.new, finishOfResult]

/-- C7: the internal finishing step runs exactly once per writer instance.
`finish()` is exactly the internal step with hard errors converted; `drop`
runs the internal step iff the writer is not yet finished (its result
discarded, its effects kept) and does nothing otherwise; and re-entering
`do_finish` with the finished flag already true performs none of the
finishing side effects (the world is returned exactly as given — the
`assert` stops the step before any effect). -/
theorem finish_once_invariant (env : Env) (fuel : Nat) (self : RequestWrite) (w : World) :
    (self.finished = true → RequestWrite.drop env fuel self w = DropOut.done w) ∧
    (self.finished = true → do_finish env (fuel + 1) self w = FinishResult.panic w) ∧
    (self.finished = false →
      RequestWrite.drop env fuel self w = dropOfResult (do_finish env fuel self w)) ∧
    RequestWrite.finish env fuel self w = finishOfResult (do_finish env fuel self w) := by
  refine ⟨fun h => ?_, fun h => ?_, fun h => ?_, rfl⟩
  · simp [RequestWrite.drop, h]
  · simp [do_finish, h]
  · simp [RequestWrite.drop, h]

/-- Witness for C7 at a concrete already-finished writer and a concrete
unfinished writer. -/
theorem finish_once_invariant_witness :
    (RequestWrite.drop ⟨fun _ _ => none⟩ 4
      ⟨⟨"GET", "http://x/", 5, false, none⟩, ⟨Stream.conn 1, none⟩, true, false, true⟩
      ⟨[], [], [], [], []⟩ = DropOut.done ⟨[], [], [], [], []⟩) ∧
    (do_finish ⟨fun _ _ => none⟩ 5
      ⟨⟨"GET", "http://x/", 5, false, none⟩, ⟨Stream.conn 1, none⟩, true, false, true⟩
      ⟨[], [], [], [], []⟩ = FinishResult.panic ⟨[], [], [], [], []⟩) ∧
    (RequestWrite.drop ⟨fun _ _ => none⟩ 4
      ⟨⟨"HEAD", "http://x/", 5, false, none⟩, ⟨Stream.conn 2, none⟩, true, false, false⟩
      ⟨[], [⟨200, [], none, none⟩], [], [], []⟩ =
      dropOfResult (do_finish ⟨fun _ _ => none⟩ 4
        ⟨⟨"HEAD", "http://x/", 5, false, none⟩, ⟨Stream.conn 2, none⟩, true, false, false⟩
        ⟨[], [⟨200, [], none, none⟩], [], [], []⟩)) :=
  ⟨(finish_once_invariant ⟨fun _ _ => none⟩ 4 _ _).1 rfl,
   (finish_once_invariant ⟨fun _ _ => none⟩ 4 _ _).2.1 rfl,
   (finish_once_invariant ⟨fun _ _ => none⟩ 4 _ _).2.2.1 rfl⟩

/-- C9: with redirect budget exactly 1, every redirect-class response
(any status in 300..=399, Location header present or not) makes the
finishing step fail with the too-many-redirects error — the budget check
precedes both the Location read and the status-code match — and `finish`
surfaces it as a synthetic-error Response. -/
theorem budget_one_redirect_always_errors (env : Env) (fuel : Nat)
    (self : RequestWrite) (w : World) (resp : Response) (prest : List Response)
    (hf : self.finished = false) (hch : self.unit.is_chunked = false)
    (hp : w.parses = resp :: prest) (hs : resp.synthetic = none)
    (h300 : 300 ≤ resp.status) (h399 : resp.status ≤ 399)
    (hb : self.unit.redirects = 1) :
    do_finish env (fuel + 1) self w =
      FinishResult.res (.error Error.tooManyRedirects) { self with finished := true }
        { w with parses := prest, cookies := w.cookies ++ [(self.unit, resp)] } ∧
    RequestWrite.finish env (fuel + 1) self w =
      FinishOut.ok (Error.tooManyRedirects).intoResponse
        { w with parses := prest, cookies := w.cookies ++ [(self.unit, resp)] } := by
  have h1 : do_finish env (fuel + 1) self w =
      FinishResult.res (.error Error.tooManyRedirects) { self with finished := true }
        { w with parses := prest, cookies := w.cookies ++ [(self.unit, resp)] } := by
    simp [do_finish, hf, hch, World.popParse, hp, Response.synthetic_error, hs,
      Response.redirect, h300, h399, hb, World.saveCookies]
  exact ⟨h1, by simp [RequestWrite.finish, h1, finishOfResult]⟩

/-- Witness for C9: a 307 response with no Location header and budget 1
yields the too-many-redirects error, converted by finish into a
synthetic-error response. -/
theorem budget_one_redirect_always_errors_witness :
    do_finish ⟨fun b l => some (b ++ l)⟩ 4
      ⟨⟨"GET", "http://x/", 1, false, none⟩, ⟨Stream.conn 1, none⟩, true, false, false⟩
      ⟨[], [⟨307, [], none, none⟩], [], [], []⟩ =
      FinishResult.res (.error Error.tooManyRedirects)
        { unit := ⟨"GET", "http://x/", 1, false, none⟩, stream := ⟨Stream.conn 1, none⟩,
          body_empty := true, connection_is_recycled := false, finished := true }
        { connects := [], parses := [], writes := [], events := [],
          cookies := [(⟨"GET", "http://x/", 1, false, none⟩, ⟨307, [], none, none⟩)] } ∧
    RequestWrite.finish ⟨fun b l => some (b ++ l)⟩ 4
      ⟨⟨"GET", "http://x/", 1, false, none⟩, ⟨Stream.conn 1, none⟩, true, false, false⟩
      ⟨[], [⟨307, [], none, none⟩], [], [], []⟩ =
      FinishOut.ok (Error.tooManyRedirects).intoResponse
        { connects := [], parses := [], writes := [], events := [],
          cookies := [(⟨"GET", "http://x/", 1, false, none⟩, ⟨307, [], none, none⟩)] } := by
  have h := budget_one_redirect_always_errors ⟨fun b l => some (b ++ l)⟩ 3
    ⟨⟨"GET", "http://x/", 1, false, none⟩, ⟨Stream.conn 1, none⟩, true, false, false⟩
    ⟨[], [⟨307, [], none, none⟩], [], [], []⟩ ⟨307, [], none, none⟩ []
    rfl rfl rfl rfl (by decide) (by decide) rfl
  simpa using h

/-- C6: a "bad status line" synthetic-error response obtained on a
non-recycled connection, or on a non-retryable attempt (non-idempotent
method or non-empty body, i.e. `is_retryable = false`), triggers no retry:
no reconnect is performed (the connect queue and event log are untouched)
and the finishing step returns that synthetic-error response, stream
handed off, to the caller.  (The real parser's synthetic responses carry
a non-redirect status, hypothesis `hnr`.) -/
theorem bad_status_no_retry (env : Env) (fuel : Nat) (self : RequestWrite)
    (w : World) (resp : Response) (prest : List Response) (err : Error)
    (hf : self.finished = false) (hch : self.unit.is_chunked = false)
    (hp : w.parses = resp :: prest) (hs : resp.synthetic = some err)
    (_hbad : err.is_bad_status_read = true) (hnr : resp.redirect = false)
    (hno : self.connection_is_recycled = false ∨ self.is_retryable = false) :
    do_finish env (fuel + 1) self w =
      FinishResult.res (.ok (set_stream resp self.unit.url self.unit self.stream))
        { self with finished := true, stream := DeadlineStream.new Stream.empty none }
        { w with parses := prest, cookies := w.cookies ++ [(self.unit, resp)] } := by
  rcases hno with hno | hno
  · simp [do_finish, hf, hch, World.popParse, hp, Response.synthetic_error, hs, hno,
      hnr, World.saveCookies, finish_terminal]
  · have hno' : ({ self with finished := true } : RequestWrite).is_retryable = false := by
      simp only [RequestWrite.is_retryable] at hno ⊢
      exact hno
    simp [do_finish, hf, hch, World.popParse, hp, Response.synthetic_error, hs, hno',
      hnr, World.saveCookies, finish_terminal]

/-- Witness for C6: a bad-status synthetic response on a fresh (non-
recycled) connection is returned as-is, with no reconnect. -/
theorem bad_status_no_retry_witness :
    do_finish ⟨fun b l => some (b ++ l)⟩ 4
      ⟨⟨"GET", "http://x/", 5, false, none⟩, ⟨Stream.conn 1, none⟩, true, false, false⟩
      ⟨[Except.ok (9, true)], [⟨500, [], some Error.badStatus, none⟩], [], [], []⟩ =
      FinishResult.res
        (.ok (set_stream ⟨500, [], some Error.badStatus, none⟩ "http://x/"
          ⟨"GET", "http://x/", 5, false, none⟩ ⟨Stream.conn 1, none⟩))
        { unit := ⟨"GET", "http://x/", 5, false, none⟩,
          stream := DeadlineStream.new Stream.empty none, body_empty := true,
          connection_is_recycled := false, finished := true }
        { connects := [Except.ok (9, true)], parses := [], writes := [], events := [],
          cookies := [(⟨"GET", "http://x/", 5, false, none⟩,
                       ⟨500, [], some Error.badStatus, none⟩)] } := by
  have h := bad_status_no_retry ⟨fun b l => some (b ++ l)⟩ 3
    ⟨⟨"GET", "http://x/", 5, false, none⟩, ⟨Stream.conn 1, none⟩, true, false, false⟩
    ⟨[Except.ok (9, true)], [⟨500, [], some Error.badStatus, none⟩], [], [], []⟩
    ⟨500, [], some Error.badStatus, none⟩ [] Error.badStatus
    rfl rfl rfl rfl rfl rfl (Or.inl rfl)
  simpa using h

/-- C3: with a redirect-class response pending, (a) redirect budget
exactly 1 makes the attempt fail with the too-many-redirects error rather
than follow the redirect; (b) budget 2 on a 302 with a resolvable
Location makes the step connect for a brand-new writer whose Unit targets
the resolved URL with budget decremented to 1 and recurse into its
finishing step, whose result is this attempt's result. -/
theorem redirect_budget_boundary (env : Env) (fuel : Nat) (self : RequestWrite)
    (w : World) (resp : Response) (prest : List Response)
    (hf : self.finished = false) (hch : self.unit.is_chunked = false)
    (hp : w.parses = resp :: prest) (hs : resp.synthetic = none)
    (hr : resp.redirect = true) :
    (self.unit.redirects = 1 →
      do_finish env (fuel + 1) self w =
        FinishResult.res (.error Error.tooManyRedirects) { self with finished := true }
          { w with parses := prest, cookies := w.cookies ++ [(self.unit, resp)] }) ∧
    (∀ loc nu sid rec crest,
      self.unit.redirects = 2 → resp.status = 302 →
      resp.header "location" = some loc → env.urlJoin self.unit.url loc = some nu →
      w.connects = Except.ok (sid, rec) :: crest →
      do_finish env (fuel + 1) self w =
        after_redirect { self with finished := true }
          (do_finish env fuel
            { unit := { method := self.unit.method, url := nu, redirects := 1,
                        is_chunked := self.unit.is_chunked,
                        deadline := self.unit.deadline },
              stream := DeadlineStream.new (Stream.conn sid) self.unit.deadline,
              body_empty := true, connection_is_recycled := rec, finished := false }
            { w with connects := crest, parses := prest,
                     events := w.events ++ [Event.connect sid],
                     cookies := w.cookies ++ [(self.unit, resp)] })) := by
  constructor
  · intro hb
    simp [do_finish, hf, hch, World.popParse, hp, Response.synthetic_error, hs, hr,
      hb, World.saveCookies]
  · intro loc nu sid rec crest hb hst hl hj hc
    simp [do_finish, hf, hch, World.popParse, hp, Response.synthetic_error, hs, hr,
      hb, hst, hl, hj, World.saveCookies, RequestWrite.new, connect_and_send_prelude,
      World.popConnect, hc, World.logEvent, Unit.redirect_to, DeadlineStream.new]

/-- Witness for C3: budget 2, a 302 with Location "/n" resolving to
"http://x/n": the step recurses into a fresh writer with budget 1;
evaluating both sides shows the retried writer's 200 response handed off. -/
theorem redirect_budget_boundary_witness :
    do_finish ⟨fun b l => some (b ++ l)⟩ 4
      ⟨⟨"GET", "http://x/", 2, false, none⟩, ⟨Stream.conn 1, none⟩, true, false, false⟩
      ⟨[Except.ok (8, false)],
       [⟨302, [("location", "/n")], none, none⟩, ⟨200, [], none, none⟩], [], [], []⟩ =
      after_redirect
        { unit := ⟨"GET", "http://x/", 2, false, none⟩, stream := ⟨Stream.conn 1, none⟩,
          body_empty := true, connection_is_recycled := false, finished := true }
        (do_finish ⟨fun b l => some (b ++ l)⟩ 3
          { unit := { method := "GET", url := "http://x//n", redirects := 1,
                      is_chunked := false, deadline := none },
            stream := DeadlineStream.new (Stream.conn 8) none,
            body_empty := true, connection_is_recycled := false, finished := false }
          { connects := [], parses := [⟨200, [], none, none⟩], writes := [],
            events := [Event.connect 8],
            cookies := [(⟨"GET", "http://x/", 2, false, none⟩,
                         ⟨302, [("location", "/n")], none, none⟩)] }) := by
  have h := (redirect_budget_boundary ⟨fun b l => some (b ++ l)⟩ 3
    ⟨⟨"GET", "http://x/", 2, false, none⟩, ⟨Stream.conn 1, none⟩, true, false, false⟩
    ⟨[Except.ok (8, false)],
     [⟨302, [("location", "/n")], none, none⟩, ⟨200, [], none, none⟩], [], [], []⟩
    ⟨302, [("location", "/n")], none, none⟩ [⟨200, [], none, none⟩]
    rfl rfl rfl rfl rfl).2 "/n" "http://x//n" 8 false []
    rfl rfl rfl rfl rfl
  simpa using h

/-- C4: with budget at least 2 and a present, resolvable Location,
(a) statuses 301, 302 and 303 are followed: a brand-new writer is opened
for the Unit re-targeted at the resolved URL (budget decremented) and its
finishing result is returned; (b) statuses 307 and 308 are not followed:
no connect is consumed (the connect queue and event log in the result are
exactly those of the input world) and the parsed response itself — status,
headers and synthetic error untouched — is handed back with the stream. -/
theorem redirect_follow_vs_307 (env : Env) (fuel : Nat) (self : RequestWrite)
    (w : World) (resp : Response) (prest : List Response) (loc nu : String)
    (hf : self.finished = false) (hch : self.unit.is_chunked = false)
    (hp : w.parses = resp :: prest) (hs : resp.synthetic = none)
    (hb2 : 2 ≤ self.unit.redirects)
    (hl : resp.header "location" = some loc)
    (hj : env.urlJoin self.unit.url loc = some nu) :
    ((resp.status = 301 ∨ resp.status = 302 ∨ resp.status = 303) →
      ∀ sid rec crest, w.connects = Except.ok (sid, rec) :: crest →
      do_finish env (fuel + 1) self w =
        after_redirect { self with finished := true }
          (do_finish env fuel
            { unit := self.unit.redirect_to nu,
              stream := DeadlineStream.new (Stream.conn sid) self.unit.deadline,
              body_empty := true, connection_is_recycled := rec, finished := false }
            { w with connects := crest, parses := prest,
                     events := w.events ++ [Event.connect sid],
                     cookies := w.cookies ++ [(self.unit, resp)] })) ∧
    ((resp.status = 307 ∨ resp.status = 308) →
      do_finish env (fuel + 1) self w =
        FinishResult.res (.ok (set_stream resp self.unit.url self.unit self.stream))
          { self with finished := true, stream := DeadlineStream.new Stream.empty none }
          { w with parses := prest, cookies := w.cookies ++ [(self.unit, resp)] } ∧
      (set_stream resp self.unit.url self.unit self.stream).status = resp.status ∧
      (set_stream resp self.unit.url self.unit self.stream).headers = resp.headers ∧
      (set_stream resp self.unit.url self.unit self.stream).synthetic = resp.synthetic) := by
  have hne0 : (self.unit.redirects != 0) = true := by
    simp only [bne_iff_ne, ne_eq]
    omega
  have hne1 : (self.unit.redirects == 1) = false := by
    simp only [beq_eq_false_iff_ne, ne_eq]
    omega
  constructor
  · intro hst sid rec crest hc
    have hr : resp.redirect = true := by
      rcases hst with h | h | h <;> simp [Response.redirect, h]
    have hst' : (resp.status == 301 || resp.status == 302 || resp.status == 303) = true := by
      rcases hst with h | h | h <;> simp [h]
    simp [do_finish, hf, hch, World.popParse, hp, Response.synthetic_error, hs, hr,
      hne0, hne1, hst', hl, hj, World.saveCookies, RequestWrite.new,
      connect_and_send_prelude, World.popConnect, hc, World.logEvent,
      Unit.redirect_to, DeadlineStream.new]
  · intro hst
    have hr : resp.redirect = true := by
      rcases hst with h | h <;> simp [Response.redirect, h]
    have hst' : (resp.status == 301 || resp.status == 302 || resp.status == 303) = false := by
      rcases hst with h | h <;> simp [h]
    refine ⟨?_, rfl, rfl, rfl⟩
    simp [do_finish, hf, hch, World.popParse, hp, Response.synthetic_error, hs, hr,
      hne0, hne1, hst', hl, hj, World.saveCookies, finish_terminal]

/-- Witness for C4: a 301 with Location "/a" (budget 3) is followed into a
fresh writer with budget 2; a 308 with the same Location and budget is
handed back untouched with no connect consumed. -/
theorem redirect_follow_vs_307_witness :
    (do_finish ⟨fun b l => some (b ++ l)⟩ 4
      ⟨⟨"GET", "http://h/", 3, false, none⟩, ⟨Stream.conn 1, none⟩, true, false, false⟩
      ⟨[Except.ok (4, false)],
       [⟨301, [("location", "/a")], none, none⟩, ⟨200, [], none, none⟩], [], [], []⟩ =
      after_redirect
        { unit := ⟨"GET", "http://h/", 3, false, none⟩, stream := ⟨Stream.conn 1, none⟩,
          body_empty := true, connection_is_recycled := false, finished := true }
        (do_finish ⟨fun b l => some (b ++ l)⟩ 3
          { unit := Unit.redirect_to ⟨"GET", "http://h/", 3, false, none⟩ "http://h//a",
            stream := DeadlineStream.new (Stream.conn 4) none,
            body_empty := true, connection_is_recycled := false, finished := false }
          { connects := [], parses := [⟨200, [], none, none⟩], writes := [],
            events := [Event.connect 4],
            cookies := [(⟨"GET", "http://h/", 3, false, none⟩,
                         ⟨301, [("location", "/a")], none, none⟩)] })) ∧
    (do_finish ⟨fun b l => some (b ++ l)⟩ 4
      ⟨⟨"GET", "http://h/", 3, false, none⟩, ⟨Stream.conn 1, none⟩, true, false, false⟩
      ⟨[Except.ok (4, false)], [⟨308, [("location", "/a")], none, none⟩], [], [], []⟩ =
      FinishResult.res
        (.ok (set_stream ⟨308, [("location", "/a")], none, none⟩ "http://h/"
          ⟨"GET", "http://h/", 3, false, none⟩ ⟨Stream.conn 1, none⟩))
        { unit := ⟨"GET", "http://h/", 3, false, none⟩,
          stream := DeadlineStream.new Stream.empty none, body_empty := true,
          connection_is_recycled := false, finished := true }
        { connects := [Except.ok (4, false)], parses := [], writes := [], events := [],
          cookies := [(⟨"GET", "http://h/", 3, false, none⟩,
                       ⟨308, [("location", "/a")], none, none⟩)] }) := by
  constructor
  · have h := (redirect_follow_vs_307 ⟨fun b l => some (b ++ l)⟩ 3
      ⟨⟨"GET", "http://h/", 3, false, none⟩, ⟨Stream.conn 1, none⟩, true, false, false⟩
      ⟨[Except.ok (4, false)],
       [⟨301, [("location", "/a")], none, none⟩, ⟨200, [], none, none⟩], [], [], []⟩
      ⟨301, [("location", "/a")], none, none⟩ [⟨200, [], none, none⟩] "/a" "http://h//a"
      rfl rfl rfl rfl (by decide) rfl rfl).1 (Or.inl rfl) 4 false [] rfl
    simpa using h
  · have h := ((redirect_follow_vs_307 ⟨fun b l => some (b ++ l)⟩ 3
      ⟨⟨"GET", "http://h/", 3, false, none⟩, ⟨Stream.conn 1, none⟩, true, false, false⟩
      ⟨[Except.ok (4, false)], [⟨308, [("location", "/a")], none, none⟩], [], [], []⟩
      ⟨308, [("location", "/a")], none, none⟩ [] "/a" "http://h//a"
      rfl rfl rfl rfl (by decide) rfl rfl).2 (Or.inr rfl)).1
    simpa using h

end Ureq
